import Mathlib

/-!
# Verification of openweather-influxdb-connector

Shallow embedding of the Go repository `cdzombak/openweather-influxdb-connector`.

Layer 1 (this section): the pure formula library `wxlib.go`, modelled over the
real numbers (the Go code computes on IEEE float64; we use `ℝ` as its
idealisation, and model an IEEE NaN-producing domain violation of `math.Log`
as an explicit `Option.none`).

Layer 2 (further below): the measurement-assembly and sink-dispatch logic of
`main.go`, modelled as an executable trace semantics over `ℚ`-valued fields.
-/

namespace OWIC

/-- Source `wxlib.go` lines 6-8: `TempFToC` converts Fahrenheit to Celsius. -/
noncomputable def TempFToC (tempF : ℝ) : ℝ := (tempF - 32.0) / 1.8

/-- Source `wxlib.go` lines 11-13: `TempCToF` converts Celsius to Fahrenheit. -/
noncomputable def TempCToF (tempC : ℝ) : ℝ := tempC * 1.8 + 32.0

/-- Source `main.go` (older revision) line 476: `float64(pressureMillibar) / 33.864`,
the millibar → inches-of-mercury conversion. -/
noncomputable def mbToInHg (mb : ℝ) : ℝ := mb / 33.864

/-- Modelled from the spec: the inverse pressure conversion inHg → millibar
(multiplication by the same fixed constant 33.864) is not present in the
source; the spec's round-trip property (§8) requires it. -/
noncomputable def inHgToMb (inHg : ℝ) : ℝ := inHg * 33.864

/-- Source `wxlib.go` lines 17-26: `DewPoint` via the Magnus approximation with
constants a = 17.625, b = 243.04.  The Go code calls `math.Log` on
`relH/100` unguarded; for `relH ≤ 0` that yields -Inf/NaN and the whole
result is NaN (no meaningful value), which we model as `none`. -/
noncomputable def DewPoint (tempF : ℝ) (relH : ℤ) : Option ℝ :=
  if (relH : ℝ) / 100.0 ≤ 0 then none
  else
    some (TempCToF ((243.04 *
      (Real.log ((relH : ℝ) / 100.0) +
        17.625 * TempFToC tempF / (243.04 + TempFToC tempF))) /
      (17.625 -
      (Real.log ((relH : ℝ) / 100.0) +
        17.625 * TempFToC tempF / (243.04 + TempFToC tempF)))))

/-- Source `wxlib.go` lines 36-41: `WindChill` — identity outside the NWS domain
(temperature over 50 °F or wind under 3 mph), otherwise the standard
wind-chill regression formula. -/
noncomputable def WindChill (tempF windSpeedMph : ℝ) : ℝ :=
  if tempF > 50.0 ∨ windSpeedMph < 3.0 then tempF
  else
    35.74 + (0.6215 * tempF) - (35.75 * windSpeedMph ^ (0.16 : ℝ)) +
      (0.4275 * tempF * windSpeedMph ^ (0.16 : ℝ))

/-- Modelled from the spec: `libwx.WindChillFWithValidation` (dependency
`github.com/cdzombak/libwx`, not under `src/`) — the strict variant that,
per spec §4.1, "signals not applicable as an explicit failure" under the
same out-of-domain condition instead of returning the input. -/
noncomputable def WindChillFWithValidation (tempF windSpeedMph : ℝ) : Option ℝ :=
  if tempF > 50.0 ∨ windSpeedMph < 3.0 then none
  else
    some (35.74 + (0.6215 * tempF) - (35.75 * windSpeedMph ^ (0.16 : ℝ)) +
      (0.4275 * tempF * windSpeedMph ^ (0.16 : ℝ)))

/-- Source `wxlib.go` lines 49-72: `IndoorHumidityRecommendation`, a step function
of outdoor temperature in °F returning an `int` percentage. -/
noncomputable def IndoorHumidityRecommendation (outdoorTempF : ℝ) : ℤ :=
  if outdoorTempF ≥ 50 then 50
  else if outdoorTempF ≥ 40 then 45
  else if outdoorTempF ≥ 30 then 40
  else if outdoorTempF ≥ 20 then 35
  else if outdoorTempF ≥ 10 then 30
  else if outdoorTempF ≥ 0 then 25
  else if outdoorTempF ≥ -10 then 20
  else 15

/-!
## Layer 2: measurement assembly and sink dispatch (`main.go`)

The current `main.go` fetches one weather `Reading` and one pollution reading,
computes derived values through the external `libwx` library, assembles three
field maps (`ecobeeData`, `weatherData`, `pollutionData`), and delivers them
to the configured sinks.  We model a run as an executable function from the
parsed `Config` and a `World` (the responses of every external collaborator:
health check, broker connect, provider fetches, AQI library, write/publish
outcomes) to the list of observable events, in program order.  Field values
are carried as `ℚ` (numeric), `ℤ` (Go int) or `String`; `libwx`-derived
numbers enter through the `Derived` record since that library is an external
dependency whose numeric output the assembly merely copies.
-/

/-- A field value in a `map[string]interface{}` handed to a sink
(float64, int, or string). -/
inductive Val where
  | num : ℚ → Val
  | int : ℤ → Val
  | str : String → Val
deriving DecidableEq

/-- One weather snapshot from the provider (`wx.Dt`, `wx.Main.*`, `wx.Wind.*`,
`wx.Visibility`, `wx.Clouds.All` in `main.go` lines 167-179). -/
structure Reading where
  dt : ℤ
  temp : ℚ
  feelsLike : ℚ
  pressure : ℚ
  humidity : ℤ
  windSpeed : ℚ
  windDeg : ℚ
  clouds : ℤ
deriving DecidableEq

/-- The locals computed from a `Reading` through the external `libwx`
library (`main.go` lines 168-194): unit conversions, dew point, absolute
humidity, indoor-humidity recommendation, and the six fallible derived
quantities, each a (value, error) pair as returned by the Go calls. -/
structure Derived where
  tempC : ℚ
  feelsLikeC : ℚ
  pressureInHg : ℚ
  dewpoint : ℚ
  dewpointC : ℚ
  absHumidity : ℚ
  windSpeedKt : ℚ
  visibilityMiles : ℚ
  indoorRec : ℤ
  heatIdxF : ℚ
  heatIdxC : ℚ
  windChillF : ℚ
  windChillC : ℚ
  wetBulbF : ℚ
  wetBulbC : ℚ
  heatIdxFErr : Bool
  heatIdxCErr : Bool
  windChillFErr : Bool
  windChillCErr : Bool
  wetBulbFErr : Bool
  wetBulbCErr : Bool
deriving DecidableEq

/-- One pollution snapshot from the provider (`polData` in `main.go`). -/
structure PollutionReading where
  dt : ℤ
  aqi : ℤ
  co : ℚ
  no : ℚ
  no2 : ℚ
  o3 : ℚ
  so2 : ℚ
  pm25 : ℚ
  pm10 : ℚ
  nh3 : ℚ
deriving DecidableEq

/-- Result of the external `go-aqi` library's `aqi.Calculate`. -/
structure AqiResult where
  aqi : ℚ
  indexName : String
deriving DecidableEq

/-- Source `main.go` lines 38-46: the MQTT section of the configuration. -/
structure MQTTConfig where
  enabled : Bool
  server : String
  port : ℤ
  username : String
  password : String
  topicRoot : String
  timeout : ℤ
deriving DecidableEq

/-- Source `main.go` lines 49-65: the parsed configuration file. -/
structure Config where
  apiKey : String
  latitude : ℚ
  longitude : ℚ
  influxServer : String
  influxOrg : String
  influxUser : String
  influxPass : String
  influxToken : String
  influxBucket : String
  influxHealthCheckDisabled : Bool
  weatherMeasurementName : String
  writeEcobeeWeatherMeasurement : Bool
  ecobeeThermostatName : String
  pollutionMeasurementName : String
  mqtt : MQTTConfig
deriving DecidableEq

/-- Source `main.go` line 34: the fixed legacy measurement name. -/
def ecobeeWeatherMeasurementName : String := "ecobee_weather"

/-- Source `main.go` line 102: `influxConfigured`. -/
def influxConfigured (cfg : Config) : Bool :=
  cfg.influxServer != "" && cfg.influxBucket != ""

/-- Source `main.go` line 103: `mqttConfigured`. -/
def mqttConfigured (cfg : Config) : Bool :=
  cfg.mqtt.enabled && cfg.mqtt.server != ""

/-- One optional field of the weather map: `main.go` lines 255-272 add the
entry only when the corresponding `libwx` validation error is nil. -/
def optField (errFlag : Bool) (key : String) (v : Val) : List (String × Val) :=
  if errFlag then [] else [(key, v)]

/-- Source `main.go` lines 236-272: the `weatherData` field map — sixteen
unconditional entries, then the six conditionally-present derived fields. -/
def weatherData (r : Reading) (d : Derived) : List (String × Val) :=
  [("temp_f", .num r.temp),
   ("temp_c", .num d.tempC),
   ("rel_humidity", .int r.humidity),
   ("abs_humidity", .num d.absHumidity),
   ("feels_like_f", .num r.feelsLike),
   ("feels_like_c", .num d.feelsLikeC),
   ("barometric_pressure_mb", .num r.pressure),
   ("barometric_pressure_inHg", .num d.pressureInHg),
   ("dew_point_f", .num d.dewpoint),
   ("dew_point_c", .num d.dewpointC),
   ("wind_speed_mph", .num r.windSpeed),
   ("wind_speed_kt", .num d.windSpeedKt),
   ("wind_bearing", .num r.windDeg),
   ("visibility_mi", .num d.visibilityMiles),
   ("recommended_max_indoor_humidity", .int d.indoorRec),
   ("cloud_cover", .int r.clouds)]
  ++ optField d.heatIdxFErr "heat_index_f" (.num d.heatIdxF)
  ++ optField d.heatIdxCErr "heat_index_c" (.num d.heatIdxC)
  ++ optField d.windChillFErr "wind_chill_f" (.num d.windChillF)
  ++ optField d.windChillCErr "wind_chill_c" (.num d.windChillC)
  ++ optField d.wetBulbFErr "wet_bulb_f" (.num d.wetBulbF)
  ++ optField d.wetBulbCErr "wet_bulb_c" (.num d.wetBulbC)

/-- Source `main.go` lines 197-208: the `ecobeeData` field map.  Note
`wind_chill_f` holds `windChillF.Unwrap()` unconditionally. -/
def ecobeeData (r : Reading) (d : Derived) : List (String × Val) :=
  [("outdoor_temp", .num r.temp),
   ("outdoor_humidity", .int r.humidity),
   ("barometric_pressure_mb", .num r.pressure),
   ("barometric_pressure_inHg", .num d.pressureInHg),
   ("dew_point", .num d.dewpoint),
   ("wind_speed", .num r.windSpeed),
   ("wind_bearing", .num r.windDeg),
   ("visibility_mi", .num d.visibilityMiles),
   ("recommended_max_indoor_humidity", .int d.indoorRec),
   ("wind_chill_f", .num d.windChillF)]

/-- Source `main.go` lines 359-373: the `pollutionData` field map. -/
def pollutionData (p : PollutionReading) (aPm aFull : AqiResult) :
    List (String × Val) :=
  [("aqi_1_5", .int p.aqi),
   ("aqi_us_pm", .num aPm.aqi),
   ("aqi_us_pm_name", .str aPm.indexName),
   ("aqi_us", .num aFull.aqi),
   ("aqi_us_name", .str aFull.indexName),
   ("co", .num p.co),
   ("no", .num p.no),
   ("no2", .num p.no2),
   ("o3", .num p.o3),
   ("so2", .num p.so2),
   ("pm25", .num p.pm25),
   ("pm10", .num p.pm10),
   ("nh3", .num p.nh3)]

/-- Source `main.go` lines 303-306 / 405-408: the four metadata entries appended to
a field map just before MQTT serialization. -/
def mqttMeta (cfg : Config) (unixTime : ℤ) : List (String × Val) :=
  [("source", .str "openweathermap"),
   ("latitude", .num cfg.latitude),
   ("longitude", .num cfg.longitude),
   ("timestamp", .int unixTime)]

/-- Decimal rendering of a coordinate for a tag value
(`strconv.FormatFloat(x, 'f', 3, 64)`; the exact digit formatting is
abstracted — no claim depends on it). -/
def coordStr (q : ℚ) : String := toString q

/-- Source `main.go` lines 282-286: tags of the weather and pollution points. -/
def weatherTags (cfg : Config) : List (String × String) :=
  [("data_source", "openweathermap"),
   ("latitude", coordStr cfg.latitude),
   ("longitude", coordStr cfg.longitude)]

/-- Source `main.go` lines 218-221: tags of the legacy ecobee point. -/
def ecobeeTags (cfg : Config) : List (String × String) :=
  [("thermostat_name", cfg.ecobeeThermostatName),
   ("data_source", "openweathermap")]

/-- The responses of every external collaborator consulted during one run,
fixed in advance: the run itself is then a deterministic function. -/
structure World where
  healthErr : Bool
  healthStatus : String
  mqttConnectErr : Bool
  wxFetchErr : Bool
  reading : Reading
  derived : Derived
  ecobeeWriteErr : Bool
  weatherWriteErr : Bool
  weatherMarshalErr : Bool
  weatherPublishErr : Bool
  polFetchErr : Bool
  polList : List PollutionReading
  aqiPm : Option AqiResult
  aqiFull : Option AqiResult
  pollutionWriteErr : Bool
  pollutionMarshalErr : Bool
  pollutionPublishErr : Bool
deriving DecidableEq

/-- Observable events of a run, in program order.  `fatal` is a `log.Fatal*`
(process abort); `influxWriteFailed` / `mqttPublishFailed` are the non-fatal
log lines after delivery failure. -/
inductive Event where
  | fatal (reason : String)
  | influxHealthCheck
  | mqttConnect
  | fetchWeather
  | fetchPollution
  | influxWrite (measurement : String) (tags : List (String × String))
      (fields : List (String × Val)) (time : ℤ)
  | influxWriteFailed (measurement : String)
  | mqttPublish (topic : String) (qos : ℤ) (payload : List (String × Val))
  | mqttPublishFailed (which : String)
deriving DecidableEq

/-- Events that involve a network call (provider fetch, health probe, broker
connect, sink delivery), as opposed to aborting or logging. -/
def isNetworkCall : Event → Bool
  | .fatal _ => false
  | .influxWriteFailed _ => false
  | .mqttPublishFailed _ => false
  | _ => true

/-- Source `main.go` lines 119-129: whether the (enabled) health probe aborts the
run. -/
def healthFatal (cfg : Config) (w : World) : Bool :=
  influxConfigured cfg && !cfg.influxHealthCheckDisabled &&
    (w.healthErr || w.healthStatus != "pass")

/-- Source `main.go` lines 196-233: the legacy ecobee write, guarded by the config
flag and — in the current revision — by `influxConfigured` only (never
MQTT). -/
def ecobeeEvents (cfg : Config) (w : World) : List Event :=
  if cfg.writeEcobeeWeatherMeasurement then
    (if influxConfigured cfg then
      Event.influxWrite ecobeeWeatherMeasurementName (ecobeeTags cfg)
          (ecobeeData w.reading w.derived) w.reading.dt ::
        (if w.ecobeeWriteErr then [.influxWriteFailed ecobeeWeatherMeasurementName] else [])
    else [])
  else []

/-- Source `main.go` lines 274-297: the weather point's InfluxDB delivery. -/
def weatherInfluxEvents (cfg : Config) (w : World) : List Event :=
  if influxConfigured cfg then
    Event.influxWrite cfg.weatherMeasurementName (weatherTags cfg)
        (weatherData w.reading w.derived) w.reading.dt ::
      (if w.weatherWriteErr then [.influxWriteFailed cfg.weatherMeasurementName] else [])
  else []

/-- Source `main.go` lines 299-316: the weather point's MQTT delivery — metadata
appended to the field map, then published at QoS 0. -/
def weatherMqttEvents (cfg : Config) (w : World) : List Event :=
  if mqttConfigured cfg then
    (if w.weatherMarshalErr then []
    else
      Event.mqttPublish (cfg.mqtt.topicRoot ++ "/weather") 0
          (weatherData w.reading w.derived ++ mqttMeta cfg w.reading.dt) ::
        (if w.weatherPublishErr then [.mqttPublishFailed "weather"] else []))
  else []

/-- Source `main.go` lines 376-399: the pollution point's InfluxDB delivery. -/
def pollutionInfluxEvents (cfg : Config) (p : PollutionReading)
    (aPm aFull : AqiResult) (w : World) : List Event :=
  if influxConfigured cfg then
    Event.influxWrite cfg.pollutionMeasurementName (weatherTags cfg)
        (pollutionData p aPm aFull) p.dt ::
      (if w.pollutionWriteErr then [.influxWriteFailed cfg.pollutionMeasurementName] else [])
  else []

/-- Source `main.go` lines 401-418: the pollution point's MQTT delivery. -/
def pollutionMqttEvents (cfg : Config) (p : PollutionReading)
    (aPm aFull : AqiResult) (w : World) : List Event :=
  if mqttConfigured cfg then
    (if w.pollutionMarshalErr then []
    else
      Event.mqttPublish (cfg.mqtt.topicRoot ++ "/pollution") 0
          (pollutionData p aPm aFull ++ mqttMeta cfg p.dt) ::
        (if w.pollutionPublishErr then [.mqttPublishFailed "pollution"] else []))
  else []

/-- Source `main.go` lines 329-418: the pollution phase — empty provider list and
AQI computation failures are fatal; otherwise both sink deliveries. -/
def pollutionPhase (cfg : Config) (w : World) : List Event :=
  match w.polList with
  | [] => [.fatal "no_pollution_data"]
  | p :: _ =>
    match w.aqiPm with
    | none => [.fatal "aqi_us_particulates"]
    | some aPm =>
      match w.aqiFull with
      | none => [.fatal "aqi_us"]
      | some aFull =>
        pollutionInfluxEvents cfg p aPm aFull w ++
          pollutionMqttEvents cfg p aPm aFull w

/-- Source `main.go` lines 108-418: everything after configuration validation —
influx setup with optional health probe, MQTT connect, weather fetch,
assembly and delivery, pollution fetch, assembly and delivery. -/
def mainTrace (cfg : Config) (w : World) : List Event :=
  (if influxConfigured cfg && !cfg.influxHealthCheckDisabled
    then [Event.influxHealthCheck] else []) ++
  (if healthFatal cfg w then [Event.fatal "influx_health"]
  else
    (if mqttConfigured cfg then [Event.mqttConnect] else []) ++
    (if mqttConfigured cfg && w.mqttConnectErr then [Event.fatal "mqtt_connect"]
    else
      Event.fetchWeather ::
      (if w.wxFetchErr then [Event.fatal "fetch_weather"]
      else
        ecobeeEvents cfg w ++ weatherInfluxEvents cfg w ++ weatherMqttEvents cfg w ++
        (Event.fetchPollution ::
        (if w.polFetchErr then [Event.fatal "fetch_pollution"]
        else pollutionPhase cfg w)))))

/-- Source `main.go` lines 91-106 then 108-418: one full run from a parsed config.
(The flag parsing and config-file reading above line 91 are out of scope.) -/
def runProgram (cfg : Config) (w : World) : List Event :=
  if cfg.apiKey == "" then [.fatal "api_key"]
  else if cfg.weatherMeasurementName == "" then [.fatal "wx_measurement_name"]
  else if cfg.writeEcobeeWeatherMeasurement && cfg.ecobeeThermostatName == ""
    then [.fatal "ecobee_thermostat_name"]
  else if !influxConfigured cfg && !mqttConfigured cfg then [.fatal "no_output"]
  else mainTrace cfg w

/-- A run gets past configuration validation, influx setup, MQTT connect and
the weather fetch (i.e. reaches the assembly/delivery section of `main.go`,
line 196 onward). -/
def reachesWeatherPhase (cfg : Config) (w : World) : Bool :=
  cfg.apiKey != "" && cfg.weatherMeasurementName != "" &&
    !(cfg.writeEcobeeWeatherMeasurement && cfg.ecobeeThermostatName == "") &&
    (influxConfigured cfg || mqttConfigured cfg) &&
    !healthFatal cfg w && !(mqttConfigured cfg && w.mqttConnectErr) &&
    !w.wxFetchErr

/-- The sixteen always-present keys of the weather point
(`main.go` lines 236-253), in assembly order. -/
def mandatoryWeatherKeys : List String :=
  ["temp_f", "temp_c", "rel_humidity", "abs_humidity", "feels_like_f",
   "feels_like_c", "barometric_pressure_mb", "barometric_pressure_inHg",
   "dew_point_f", "dew_point_c", "wind_speed_mph", "wind_speed_kt",
   "wind_bearing", "visibility_mi", "recommended_max_indoor_humidity",
   "cloud_cover"]

/-!
### Concrete instances (used by the witness theorems)
-/

/-- A sample weather reading (the spec's §8 end-to-end scenario). -/
def rEx : Reading :=
  { dt := 1700000000, temp := 72, feelsLike := 70, pressure := 1013,
    humidity := 45, windSpeed := 5, windDeg := 180, clouds := 20 }

/-- Sample derived values where all three fallible computations failed. -/
def dExAllFail : Derived :=
  { tempC := 22, feelsLikeC := 21, pressureInHg := 30,
    dewpoint := 50, dewpointC := 10, absHumidity := 11, windSpeedKt := 4,
    visibilityMiles := 6, indoorRec := 50,
    heatIdxF := 0, heatIdxC := 0, windChillF := 72, windChillC := 22,
    wetBulbF := 0, wetBulbC := 0,
    heatIdxFErr := true, heatIdxCErr := true, windChillFErr := true,
    windChillCErr := true, wetBulbFErr := true, wetBulbCErr := true }

/-- Sample derived values where every computation succeeded. -/
def dExAllOk : Derived :=
  { dExAllFail with
    heatIdxFErr := false
    heatIdxCErr := false
    windChillFErr := false
    windChillCErr := false
    wetBulbFErr := false
    wetBulbCErr := false }

/-- A sample pollution reading. -/
def pEx : PollutionReading :=
  { dt := 1700000100, aqi := 2, co := 230, no := 1, no2 := 12, o3 := 70,
    so2 := 2, pm25 := 9, pm10 := 14, nh3 := 1 }

/-- Sample AQI library results. -/
def aqiPmEx : AqiResult := { aqi := 38, indexName := "Good" }

/-- Sample AQI library result for the full pollutant set. -/
def aqiFullEx : AqiResult := { aqi := 41, indexName := "Good" }

/-- A configuration with both sinks configured, legacy mode on, and the
health probe disabled. -/
def cfgEx : Config :=
  { apiKey := "k", latitude := 40, longitude := -75,
    influxServer := "http://influx.local:8086", influxOrg := "", influxUser := "",
    influxPass := "", influxToken := "", influxBucket := "wx",
    influxHealthCheckDisabled := true, weatherMeasurementName := "weather",
    writeEcobeeWeatherMeasurement := true, ecobeeThermostatName := "Home",
    pollutionMeasurementName := "pollution",
    mqtt := { enabled := true, server := "broker.local", port := 1883,
              username := "", password := "", topicRoot := "home/wx",
              timeout := 5 } }

/-- A configuration with no sink configured at all. -/
def cfgNoSinks : Config :=
  { cfgEx with
    influxServer := ""
    influxBucket := ""
    mqtt := { cfgEx.mqtt with enabled := false } }

/-- A fully successful external world. -/
def wEx : World :=
  { healthErr := false, healthStatus := "pass", mqttConnectErr := false,
    wxFetchErr := false, reading := rEx, derived := dExAllOk,
    ecobeeWriteErr := false, weatherWriteErr := false,
    weatherMarshalErr := false, weatherPublishErr := false,
    polFetchErr := false, polList := [pEx], aqiPm := some aqiPmEx,
    aqiFull := some aqiFullEx, pollutionWriteErr := false,
    pollutionMarshalErr := false, pollutionPublishErr := false }

/-- The same world but the weather MQTT publish fails. -/
def wExPublishFail : World := { wEx with weatherPublishErr := true }

/-!
## Helper lemmas
-/

/-- Lookup distributes over list append (helper). -/
theorem lookup_append {β : Type} (l₁ l₂ : List (String × β)) (k : String) :
    (l₁ ++ l₂).lookup k = ((l₁.lookup k).or (l₂.lookup k)) := by
  induction l₁ with
  | nil => simp [List.lookup]
  | cons a tl ih =>
    obtain ⟨k', v'⟩ := a
    simp only [List.cons_append, List.lookup]
    cases (k == k') <;> simp [ih]

/-- Round-trip of the temperature conversions (helper). -/
theorem tempCF_roundtrip (x : ℝ) : TempCToF (TempFToC x) = x := by
  unfold TempCToF TempFToC
  field_simp

/-- Unfolding of `DewPoint` off the guard (helper). -/
theorem dewPoint_eq (tempF : ℝ) (relH : ℤ) (h : ¬((relH : ℝ) / 100.0 ≤ 0)) :
    DewPoint tempF relH =
      some (TempCToF ((243.04 *
        (Real.log ((relH : ℝ) / 100.0) +
          17.625 * TempFToC tempF / (243.04 + TempFToC tempF))) /
        (17.625 -
        (Real.log ((relH : ℝ) / 100.0) +
          17.625 * TempFToC tempF / (243.04 + TempFToC tempF))))) := by
  unfold DewPoint
  rw [if_neg h]

/-- Lookup misses an optional field with a different key (helper). -/
theorem optField_lookup_ne (e : Bool) (key : String) (v : Val) (k : String)
    (h : (k == key) = false) : (optField e key v).lookup k = none := by
  unfold optField
  cases e <;> simp [List.lookup, h]

/-- Lookup of an optional field at its own key (helper). -/
theorem optField_lookup_self (e : Bool) (key : String) (v : Val) :
    (optField e key v).lookup key = if e then none else some v := by
  cases e <;> simp [optField, List.lookup]

/-- None of the four MQTT metadata keys, nor the ecobee signature key
`outdoor_temp`, occurs in the weather field map (helper). -/
theorem weatherData_meta_none (r : Reading) (d : Derived) (k : String)
    (hk : k = "source" ∨ k = "latitude" ∨ k = "longitude" ∨ k = "timestamp" ∨
      k = "outdoor_temp") :
    (weatherData r d).lookup k = none := by
  unfold weatherData
  simp only [lookup_append]
  rcases hk with h | h | h | h | h <;> subst h <;>
    rw [optField_lookup_ne _ _ _ _ (by decide), optField_lookup_ne _ _ _ _ (by decide),
      optField_lookup_ne _ _ _ _ (by decide), optField_lookup_ne _ _ _ _ (by decide),
      optField_lookup_ne _ _ _ _ (by decide), optField_lookup_ne _ _ _ _ (by decide)] <;>
    simp [List.lookup]

/-- None of the four MQTT metadata keys occurs in the ecobee field map
(helper). -/
theorem ecobeeData_meta_none (r : Reading) (d : Derived) (k : String)
    (hk : k = "source" ∨ k = "latitude" ∨ k = "longitude" ∨ k = "timestamp") :
    (ecobeeData r d).lookup k = none := by
  rcases hk with h | h | h | h <;> subst h <;> simp [ecobeeData, List.lookup]

/-- None of the four MQTT metadata keys, nor `outdoor_temp`, occurs in the
pollution field map (helper). -/
theorem pollutionData_meta_none (p : PollutionReading) (aPm aFull : AqiResult)
    (k : String)
    (hk : k = "source" ∨ k = "latitude" ∨ k = "longitude" ∨ k = "timestamp" ∨
      k = "outdoor_temp") :
    (pollutionData p aPm aFull).lookup k = none := by
  rcases hk with h | h | h | h | h <;> subst h <;> simp [pollutionData, List.lookup]

/-- Classification of the events the ecobee section can emit (helper). -/
theorem mem_ecobeeEvents {cfg : Config} {w : World} {e : Event}
    (h : e ∈ ecobeeEvents cfg w) :
    e = Event.influxWrite ecobeeWeatherMeasurementName (ecobeeTags cfg)
        (ecobeeData w.reading w.derived) w.reading.dt ∨
      e = Event.influxWriteFailed ecobeeWeatherMeasurementName := by
  unfold ecobeeEvents at h
  repeat split at h
  all_goals simp_all

/-- Classification of the events the weather-influx section can emit
(helper). -/
theorem mem_weatherInfluxEvents {cfg : Config} {w : World} {e : Event}
    (h : e ∈ weatherInfluxEvents cfg w) :
    e = Event.influxWrite cfg.weatherMeasurementName (weatherTags cfg)
        (weatherData w.reading w.derived) w.reading.dt ∨
      e = Event.influxWriteFailed cfg.weatherMeasurementName := by
  unfold weatherInfluxEvents at h
  repeat split at h
  all_goals simp_all

/-- Classification of the events the weather-MQTT section can emit
(helper). -/
theorem mem_weatherMqttEvents {cfg : Config} {w : World} {e : Event}
    (h : e ∈ weatherMqttEvents cfg w) :
    e = Event.mqttPublish (cfg.mqtt.topicRoot ++ "/weather") 0
        (weatherData w.reading w.derived ++ mqttMeta cfg w.reading.dt) ∨
      e = Event.mqttPublishFailed "weather" := by
  unfold weatherMqttEvents at h
  repeat split at h
  all_goals simp_all
  all_goals tauto

/-- Classification of the events the pollution-influx section can emit
(helper). -/
theorem mem_pollutionInfluxEvents {cfg : Config} {w : World}
    {p : PollutionReading} {aPm aFull : AqiResult} {e : Event}
    (h : e ∈ pollutionInfluxEvents cfg p aPm aFull w) :
    e = Event.influxWrite cfg.pollutionMeasurementName (weatherTags cfg)
        (pollutionData p aPm aFull) p.dt ∨
      e = Event.influxWriteFailed cfg.pollutionMeasurementName := by
  unfold pollutionInfluxEvents at h
  repeat split at h
  all_goals simp_all

/-- Classification of the events the pollution-MQTT section can emit
(helper). -/
theorem mem_pollutionMqttEvents {cfg : Config} {w : World}
    {p : PollutionReading} {aPm aFull : AqiResult} {e : Event}
    (h : e ∈ pollutionMqttEvents cfg p aPm aFull w) :
    e = Event.mqttPublish (cfg.mqtt.topicRoot ++ "/pollution") 0
        (pollutionData p aPm aFull ++ mqttMeta cfg p.dt) ∨
      e = Event.mqttPublishFailed "pollution" := by
  unfold pollutionMqttEvents at h
  repeat split at h
  all_goals simp_all
  all_goals tauto

/-- Classification of all events a run can emit (helper): every event is
either a bookkeeping event, one of the three influx writes with its exact
field map, or one of the two MQTT publishes with its exact payload. -/
theorem mem_runProgram_classify {cfg : Config} {w : World} {e : Event}
    (h : e ∈ runProgram cfg w) :
    (∃ m, e = Event.fatal m) ∨
    e = Event.influxHealthCheck ∨ e = Event.mqttConnect ∨
    e = Event.fetchWeather ∨ e = Event.fetchPollution ∨
    (∃ m, e = Event.influxWriteFailed m) ∨
    (∃ s, e = Event.mqttPublishFailed s) ∨
    e = Event.influxWrite ecobeeWeatherMeasurementName (ecobeeTags cfg)
        (ecobeeData w.reading w.derived) w.reading.dt ∨
    e = Event.influxWrite cfg.weatherMeasurementName (weatherTags cfg)
        (weatherData w.reading w.derived) w.reading.dt ∨
    (∃ p aPm aFull, e = Event.influxWrite cfg.pollutionMeasurementName
        (weatherTags cfg) (pollutionData p aPm aFull) p.dt) ∨
    e = Event.mqttPublish (cfg.mqtt.topicRoot ++ "/weather") 0
        (weatherData w.reading w.derived ++ mqttMeta cfg w.reading.dt) ∨
    (∃ p aPm aFull, e = Event.mqttPublish (cfg.mqtt.topicRoot ++ "/pollution") 0
        (pollutionData p aPm aFull ++ mqttMeta cfg p.dt)) := by
  unfold runProgram at h
  split at h
  · simp at h; subst h; exact Or.inl ⟨_, rfl⟩
  · split at h
    · simp at h; subst h; exact Or.inl ⟨_, rfl⟩
    · split at h
      · simp at h; subst h; exact Or.inl ⟨_, rfl⟩
      · split at h
        · simp at h; subst h; exact Or.inl ⟨_, rfl⟩
        · unfold mainTrace at h
          rcases List.mem_append.mp h with h | h
          · split at h <;> simp_all
          · split at h
            · simp at h; subst h; exact Or.inl ⟨_, rfl⟩
            · rcases List.mem_append.mp h with h | h
              · split at h <;> simp_all
              · split at h
                · simp at h; subst h; exact Or.inl ⟨_, rfl⟩
                · rcases List.mem_cons.mp h with h | h
                  · subst h; tauto
                  · split at h
                    · simp at h; subst h; exact Or.inl ⟨_, rfl⟩
                    · rcases List.mem_append.mp h with h | h
                      · rcases List.mem_append.mp h with h | h
                        · rcases List.mem_append.mp h with h | h
                          · rcases mem_ecobeeEvents h with h | h <;> subst h
                            · exact Or.inr (Or.inr (Or.inr (Or.inr (Or.inr
                                (Or.inr (Or.inr (Or.inl rfl)))))))
                            · exact Or.inr (Or.inr (Or.inr (Or.inr (Or.inr
                                (Or.inl ⟨_, rfl⟩)))))
                          · rcases mem_weatherInfluxEvents h with h | h <;> subst h
                            · exact Or.inr (Or.inr (Or.inr (Or.inr (Or.inr
                                (Or.inr (Or.inr (Or.inr (Or.inl rfl))))))))
                            · exact Or.inr (Or.inr (Or.inr (Or.inr (Or.inr
                                (Or.inl ⟨_, rfl⟩)))))
                        · rcases mem_weatherMqttEvents h with h | h <;> subst h
                          · exact Or.inr (Or.inr (Or.inr (Or.inr (Or.inr (Or.inr
                              (Or.inr (Or.inr (Or.inr (Or.inr (Or.inl rfl))))))))))
                          · exact Or.inr (Or.inr (Or.inr (Or.inr (Or.inr (Or.inr
                              (Or.inl ⟨_, rfl⟩))))))
                      · rcases List.mem_cons.mp h with h | h
                        · subst h; tauto
                        · split at h
                          · simp at h; subst h; exact Or.inl ⟨_, rfl⟩
                          · unfold pollutionPhase at h
                            split at h
                            · simp at h; subst h; exact Or.inl ⟨_, rfl⟩
                            · split at h
                              · simp at h; subst h; exact Or.inl ⟨_, rfl⟩
                              · split at h
                                · simp at h; subst h; exact Or.inl ⟨_, rfl⟩
                                · rcases List.mem_append.mp h with h | h
                                  · rcases mem_pollutionInfluxEvents h with h | h <;>
                                      subst h
                                    · exact Or.inr (Or.inr (Or.inr (Or.inr (Or.inr
                                        (Or.inr (Or.inr (Or.inr (Or.inr (Or.inl
                                        ⟨_, _, _, rfl⟩)))))))))
                                    · exact Or.inr (Or.inr (Or.inr (Or.inr (Or.inr
                                        (Or.inl ⟨_, rfl⟩)))))
                                  · rcases mem_pollutionMqttEvents h with h | h <;>
                                      subst h
                                    · exact Or.inr (Or.inr (Or.inr (Or.inr (Or.inr
                                        (Or.inr (Or.inr (Or.inr (Or.inr (Or.inr
                                        (Or.inr ⟨_, _, _, rfl⟩))))))))))
                                    · exact Or.inr (Or.inr (Or.inr (Or.inr (Or.inr
                                        (Or.inr (Or.inl ⟨_, rfl⟩))))))

/-- A key whose lookup misses is not among the keys (helper). -/
theorem not_mem_keys_of_lookup_none {l : List (String × Val)} {k : String}
    (h : l.lookup k = none) : k ∉ l.map Prod.fst := by
  simp only [List.lookup_eq_none_iff, bne_iff_ne, ne_eq, Prod.forall] at h
  intro hk
  rcases List.mem_map.mp hk with ⟨⟨a, b⟩, hm, rfl⟩
  exact h a b hm rfl

/-- When a run reaches the weather phase, its trace has the full
assembly/delivery shape (helper). -/
theorem runProgram_eq_of_reaches (cfg : Config) (w : World)
    (h : reachesWeatherPhase cfg w = true) :
    runProgram cfg w =
      (if influxConfigured cfg && !cfg.influxHealthCheckDisabled
        then [Event.influxHealthCheck] else []) ++
      ((if mqttConfigured cfg then [Event.mqttConnect] else []) ++
        (Event.fetchWeather ::
          (ecobeeEvents cfg w ++ weatherInfluxEvents cfg w ++
            weatherMqttEvents cfg w ++
            (Event.fetchPollution ::
              (if w.polFetchErr then [Event.fatal "fetch_pollution"]
                else pollutionPhase cfg w))))) := by
  simp only [reachesWeatherPhase, Bool.and_eq_true] at h
  obtain ⟨⟨⟨⟨⟨⟨h1, h2⟩, h3⟩, h4⟩, h5⟩, h6⟩, h7⟩ := h
  have c1 : (cfg.apiKey == "") = false := by
    cases hx : (cfg.apiKey == "") <;> simp_all [bne]
  have c2 : (cfg.weatherMeasurementName == "") = false := by
    cases hx : (cfg.weatherMeasurementName == "") <;> simp_all [bne]
  have c3 : (cfg.writeEcobeeWeatherMeasurement &&
      cfg.ecobeeThermostatName == "") = false := by
    cases hx : (cfg.writeEcobeeWeatherMeasurement &&
      cfg.ecobeeThermostatName == "") <;> simp_all
  have c4 : (!influxConfigured cfg && !mqttConfigured cfg) = false := by
    cases hI : influxConfigured cfg <;> cases hM : mqttConfigured cfg <;> simp_all
  have c5 : healthFatal cfg w = false := by
    cases hx : healthFatal cfg w <;> simp_all
  have c6 : (mqttConfigured cfg && w.mqttConnectErr) = false := by
    cases hx : (mqttConfigured cfg && w.mqttConnectErr) <;> simp_all
  have c7 : w.wxFetchErr = false := by
    cases hx : w.wxFetchErr <;> simp_all
  unfold runProgram mainTrace
  rw [c1, c2, c3, c4, c5, c6, c7]
  simp

/-!
## Claim theorems: formula layer
-/

/-- C7: the unit conversions are mutual inverses — `TempCToF ∘ TempFToC` is
the identity, and `mbToInHg ∘ inHgToMb` is the identity (exactly, over the
real-number model of float64, hence in particular within any floating-point
tolerance). -/
theorem conversions_mutual_inverses :
    ∀ x y : ℝ, TempCToF (TempFToC x) = x ∧ mbToInHg (inHgToMb y) = y := by
  intro x y
  refine ⟨tempCF_roundtrip x, ?_⟩
  unfold mbToInHg inHgToMb
  field_simp

/-- C4: in compatibility mode (`wxlib.go`'s `WindChill`), the function is the
identity whenever `T > 50 ∨ V < 3` and equals the NWS regression formula on
the complementary domain; the strict variant (`WindChillFWithValidation`)
fails (returns `none`) exactly on the out-of-domain condition and agrees with
the compatibility value in-domain. -/
theorem windChill_compat_and_strict :
    ∀ T V : ℝ,
      ((T > 50 ∨ V < 3) → WindChill T V = T) ∧
      (T ≤ 50 → 3 ≤ V →
        WindChill T V =
          35.74 + (0.6215 * T) - (35.75 * V ^ (0.16 : ℝ)) +
            (0.4275 * T * V ^ (0.16 : ℝ))) ∧
      (WindChillFWithValidation T V = none ↔ (T > 50 ∨ V < 3)) ∧
      (T ≤ 50 → 3 ≤ V → WindChillFWithValidation T V = some (WindChill T V)) := by
  intro T V
  have hnot : T ≤ 50 → 3 ≤ V → ¬(T > 50.0 ∨ V < 3.0) := by
    rintro h1 h2 (h | h) <;> [linarith; linarith]
  refine ⟨?_, ?_, ?_, ?_⟩
  · intro h
    unfold WindChill
    rw [if_pos (by norm_num at h ⊢; exact h)]
  · intro h1 h2
    unfold WindChill
    rw [if_neg (hnot h1 h2)]
  · unfold WindChillFWithValidation
    by_cases h : T > 50.0 ∨ V < 3.0
    · rw [if_pos h]
      norm_num at h ⊢
      exact h
    · rw [if_neg h]
      norm_num at h ⊢
      simp
      exact h
  · intro h1 h2
    unfold WindChillFWithValidation WindChill
    rw [if_neg (hnot h1 h2), if_neg (hnot h1 h2)]

/-- Witness for C4 at concrete points: (72 °F, 5 mph) is out of domain, so
compatibility mode returns 72 unchanged and strict mode at (40 °F, 2 mph)
signals not-applicable. -/
theorem windChill_compat_and_strict_witness :
    ((72 : ℝ) > 50 ∨ (5 : ℝ) < 3) ∧ WindChill 72 5 = 72 ∧
      WindChillFWithValidation 40 2 = none :=
  ⟨Or.inl (by norm_num),
   (windChill_compat_and_strict 72 5).1 (Or.inl (by norm_num)),
   ((windChill_compat_and_strict 40 2).2.2.1).mpr (Or.inr (by norm_num))⟩

/-- C6 counterexample: the claim says the recommendation is monotonically
non-increasing in temperature, but it increases: 40 ≤ 50 while the value at
40 °F (45) is strictly below the value at 50 °F (50). -/
theorem indoorHumidity_not_nonincreasing :
    (40 : ℝ) ≤ 50 ∧ IndoorHumidityRecommendation 40 = 45 ∧
      IndoorHumidityRecommendation 50 = 50 ∧
      ¬(IndoorHumidityRecommendation 50 ≤ IndoorHumidityRecommendation 40) := by
  refine ⟨by norm_num, ?_, ?_, ?_⟩ <;> norm_num [IndoorHumidityRecommendation]

set_option maxHeartbeats 1600000 in
/-- C6 amended: `IndoorHumidityRecommendation` is a monotonically
non-DEcreasing step function of temperature, total, with the exact outputs
50, 45, 40, 35, 30, 25, 20, 15 at inputs 50, 40, 30, 20, 10, 0, -10, -20 °F
respectively. -/
theorem indoorHumidity_step_function :
    (∀ x y : ℝ, x ≤ y →
        IndoorHumidityRecommendation x ≤ IndoorHumidityRecommendation y) ∧
      IndoorHumidityRecommendation 50 = 50 ∧
      IndoorHumidityRecommendation 40 = 45 ∧
      IndoorHumidityRecommendation 30 = 40 ∧
      IndoorHumidityRecommendation 20 = 35 ∧
      IndoorHumidityRecommendation 10 = 30 ∧
      IndoorHumidityRecommendation 0 = 25 ∧
      IndoorHumidityRecommendation (-10) = 20 ∧
      IndoorHumidityRecommendation (-20) = 15 := by
  constructor
  · intro x y hxy
    unfold IndoorHumidityRecommendation
    split_ifs <;> first | omega | (exfalso; linarith)
  · refine ⟨?_, ?_, ?_, ?_, ?_, ?_, ?_, ?_⟩ <;>
      norm_num [IndoorHumidityRecommendation]

/-- Witness for C6 (amended) at a concrete pair: 3 ≤ 7, and the
recommendation at 3 °F is at most the one at 7 °F. -/
theorem indoorHumidity_step_function_witness :
    IndoorHumidityRecommendation 3 ≤ IndoorHumidityRecommendation 7 :=
  indoorHumidity_step_function.1 3 7 (by norm_num)

/-- C5 counterexample: at the (unphysical, but unrestricted by the claim)
input temperature -12568 °F (-7000 °C) with humidity 50 ∈ (0,100], the Magnus
computation succeeds but returns a dew point strictly ABOVE the input
temperature: the `17.625 - alpha` denominator has crossed its pole, so the
"value ≤ input temperature" half of the claim fails without a lower bound on
the temperature. -/
theorem dewPoint_claim_counterexample :
    (0 : ℤ) < 50 ∧ (50 : ℤ) ≤ 100 ∧
      ∃ v, DewPoint (-12568) 50 = some v ∧ ¬(v ≤ -12568) := by
  refine ⟨by norm_num, by norm_num, ?_⟩
  have hguard : ¬((((50 : ℤ) : ℝ)) / 100.0 ≤ 0) := by norm_num
  have ht : TempFToC (-12568) = -7000 := by unfold TempFToC; norm_num
  have hlog : Real.log (((50 : ℤ) : ℝ) / 100.0) = -Real.log 2 := by
    rw [show (((50 : ℤ) : ℝ) / 100.0) = 2⁻¹ by norm_num, Real.log_inv]
  refine ⟨_, dewPoint_eq (-12568) 50 hguard, ?_⟩
  rw [ht, hlog]
  have hA : 17.625 * (-7000 : ℝ) / (243.04 + -7000) = 146875 / 8044 := by
    norm_num
  rw [hA]
  have hl2u : Real.log 2 < 0.6931471808 := Real.log_two_lt_d9
  have hl2l : (0.6931471803 : ℝ) < Real.log 2 := Real.log_two_gt_d9
  have h1 : 0 < -Real.log 2 + (146875 : ℝ) / 8044 := by nlinarith
  have h2 : 0 < 17.625 - (-Real.log 2 + (146875 : ℝ) / 8044) := by nlinarith
  have h3 : 0 < 243.04 * (-Real.log 2 + (146875 : ℝ) / 8044) /
      (17.625 - (-Real.log 2 + (146875 : ℝ) / 8044)) :=
    div_pos (by nlinarith) h2
  unfold TempCToF
  nlinarith

/-- C5 amended: dew point fails (returns no value) for every relative
humidity ≤ 0; and for every humidity in (0,100] and every input temperature
above -405.472 °F (Celsius above the Magnus constant -243.04 — in particular
every physical temperature), it succeeds and returns a value ≤ the input
temperature. -/
theorem dewPoint_domain_and_bound :
    (∀ (tempF : ℝ) (relH : ℤ), relH ≤ 0 → DewPoint tempF relH = none) ∧
    (∀ (tempF : ℝ) (relH : ℤ), 0 < relH → relH ≤ 100 →
      -243.04 < TempFToC tempF →
      ∃ v, DewPoint tempF relH = some v ∧ v ≤ tempF) := by
  constructor
  · intro tempF relH h
    have hg : ((relH : ℝ)) / 100.0 ≤ 0 := by
      apply div_nonpos_of_nonpos_of_nonneg
      · exact_mod_cast h
      · norm_num
    unfold DewPoint
    rw [if_pos hg]
  · intro tempF relH h0 h100 htemp
    have hg0 : (0 : ℝ) < ((relH : ℝ)) / 100.0 := by
      apply div_pos
      · exact_mod_cast h0
      · norm_num
    have hg : ¬(((relH : ℝ)) / 100.0 ≤ 0) := not_le.mpr hg0
    have hg1 : ((relH : ℝ)) / 100.0 ≤ 1 := by
      rw [div_le_one (by norm_num)]
      have : (relH : ℝ) ≤ 100 := by exact_mod_cast h100
      linarith
    refine ⟨_, dewPoint_eq tempF relH hg, ?_⟩
    set t := TempFToC tempF with hts
    set logh := Real.log ((relH : ℝ) / 100.0) with hlogh
    have hbt : (0 : ℝ) < 243.04 + t := by linarith
    have hlogh0 : logh ≤ 0 := Real.log_nonpos (le_of_lt hg0) hg1
    set A := 17.625 * t / (243.04 + t) with hAdef
    have hAlt : A < 17.625 := by
      rw [hAdef, div_lt_iff₀ hbt]
      nlinarith
    have halpha_le : logh + A ≤ A := by linarith
    have hden : 0 < 17.625 - (logh + A) := by linarith
    have hdenA : 0 < 17.625 - A := by linarith
    have hAt : 243.04 * A / (17.625 - A) = t := by
      rw [hAdef]
      rw [div_eq_iff (by positivity)]
      field_simp
      ring
    have hdivle : 243.04 * (logh + A) / (17.625 - (logh + A)) ≤
        243.04 * A / (17.625 - A) := by
      rw [div_le_div_iff₀ hden hdenA]
      nlinarith
    have hvle : 243.04 * (logh + A) / (17.625 - (logh + A)) ≤ t := by
      rw [← hAt]; exact hdivle
    calc TempCToF (243.04 * (logh + A) / (17.625 - (logh + A)))
        ≤ TempCToF t := by unfold TempCToF; linarith
      _ = tempF := tempCF_roundtrip tempF

/-- Witness for C5 (amended): humidity -5 fails; at 72 °F and humidity 45
the dew point exists and is at most 72 °F. -/
theorem dewPoint_domain_and_bound_witness :
    DewPoint 72 (-5) = none ∧ ∃ v, DewPoint 72 45 = some v ∧ v ≤ 72 :=
  ⟨dewPoint_domain_and_bound.1 72 (-5) (by norm_num),
   dewPoint_domain_and_bound.2 72 45 (by norm_num) (by norm_num)
     (by unfold TempFToC; norm_num)⟩

/-!
## Claim theorems: assembly layer
-/

/-- C1: every weather point contains all sixteen mandatory fields whatever
the outcome of the fallible derived computations; when all of them fail the
key set is exactly the mandatory one (the six derived fields are absent);
and each derived field's presence depends only on its own validation flag,
so no single invalid derived quantity blocks emission of the others. -/
theorem weather_point_mandatory_fields (r : Reading) (d : Derived) :
    (∀ k ∈ mandatoryWeatherKeys, ((weatherData r d).lookup k).isSome = true) ∧
    ((d.heatIdxFErr = true ∧ d.heatIdxCErr = true ∧ d.windChillFErr = true ∧
        d.windChillCErr = true ∧ d.wetBulbFErr = true ∧ d.wetBulbCErr = true) →
      (weatherData r d).map Prod.fst = mandatoryWeatherKeys) ∧
    ((weatherData r d).lookup "heat_index_f" =
      if d.heatIdxFErr then none else some (.num d.heatIdxF)) ∧
    ((weatherData r d).lookup "heat_index_c" =
      if d.heatIdxCErr then none else some (.num d.heatIdxC)) ∧
    ((weatherData r d).lookup "wind_chill_f" =
      if d.windChillFErr then none else some (.num d.windChillF)) ∧
    ((weatherData r d).lookup "wind_chill_c" =
      if d.windChillCErr then none else some (.num d.windChillC)) ∧
    ((weatherData r d).lookup "wet_bulb_f" =
      if d.wetBulbFErr then none else some (.num d.wetBulbF)) ∧
    ((weatherData r d).lookup "wet_bulb_c" =
      if d.wetBulbCErr then none else some (.num d.wetBulbC)) := by
  refine ⟨?_, ?_, ?_, ?_, ?_, ?_, ?_, ?_⟩
  · intro k hk
    fin_cases hk <;>
      (unfold weatherData; simp only [lookup_append]; simp [List.lookup, Option.or])
  · rintro ⟨h1, h2, h3, h4, h5, h6⟩
    unfold weatherData optField
    rw [h1, h2, h3, h4, h5, h6]
    simp [mandatoryWeatherKeys]
  · unfold weatherData
    simp only [lookup_append]
    rw [optField_lookup_self, optField_lookup_ne _ _ _ _ (by decide),
      optField_lookup_ne _ _ _ _ (by decide), optField_lookup_ne _ _ _ _ (by decide),
      optField_lookup_ne _ _ _ _ (by decide), optField_lookup_ne _ _ _ _ (by decide)]
    cases d.heatIdxFErr <;> simp [List.lookup, Option.or]
  · unfold weatherData
    simp only [lookup_append]
    rw [optField_lookup_ne _ _ _ _ (by decide), optField_lookup_self,
      optField_lookup_ne _ _ _ _ (by decide), optField_lookup_ne _ _ _ _ (by decide),
      optField_lookup_ne _ _ _ _ (by decide), optField_lookup_ne _ _ _ _ (by decide)]
    cases d.heatIdxCErr <;> simp [List.lookup, Option.or]
  · unfold weatherData
    simp only [lookup_append]
    rw [optField_lookup_ne _ _ _ _ (by decide), optField_lookup_ne _ _ _ _ (by decide),
      optField_lookup_self, optField_lookup_ne _ _ _ _ (by decide),
      optField_lookup_ne _ _ _ _ (by decide), optField_lookup_ne _ _ _ _ (by decide)]
    cases d.windChillFErr <;> simp [List.lookup, Option.or]
  · unfold weatherData
    simp only [lookup_append]
    rw [optField_lookup_ne _ _ _ _ (by decide), optField_lookup_ne _ _ _ _ (by decide),
      optField_lookup_ne _ _ _ _ (by decide), optField_lookup_self,
      optField_lookup_ne _ _ _ _ (by decide), optField_lookup_ne _ _ _ _ (by decide)]
    cases d.windChillCErr <;> simp [List.lookup, Option.or]
  · unfold weatherData
    simp only [lookup_append]
    rw [optField_lookup_ne _ _ _ _ (by decide), optField_lookup_ne _ _ _ _ (by decide),
      optField_lookup_ne _ _ _ _ (by decide), optField_lookup_ne _ _ _ _ (by decide),
      optField_lookup_self, optField_lookup_ne _ _ _ _ (by decide)]
    cases d.wetBulbFErr <;> simp [List.lookup, Option.or]
  · unfold weatherData
    simp only [lookup_append]
    rw [optField_lookup_ne _ _ _ _ (by decide), optField_lookup_ne _ _ _ _ (by decide),
      optField_lookup_ne _ _ _ _ (by decide), optField_lookup_ne _ _ _ _ (by decide),
      optField_lookup_ne _ _ _ _ (by decide), optField_lookup_self]
    cases d.wetBulbCErr <;> simp [List.lookup, Option.or]

/-- Witness for C1 at a concrete reading where all three derived
computations failed: the mandatory field `temp_f` is present and the key
set is exactly the mandatory list. -/
theorem weather_point_mandatory_fields_witness :
    ((weatherData rEx dExAllFail).lookup "temp_f").isSome = true ∧
      (weatherData rEx dExAllFail).map Prod.fst = mandatoryWeatherKeys :=
  ⟨(weather_point_mandatory_fields rEx dExAllFail).1 "temp_f" (by decide),
   (weather_point_mandatory_fields rEx dExAllFail).2.1 (by decide)⟩

/-- C10: the legacy ecobee point's `wind_chill_f` field is always present,
holding the unwrapped wind-chill value even when the wind-chill validation
failed — unlike the weather point, which omits the field in that case. -/
theorem ecobee_windchill_unconditional (r : Reading) (d : Derived) :
    (ecobeeData r d).lookup "wind_chill_f" = some (.num d.windChillF) ∧
    (d.windChillFErr = true → (weatherData r d).lookup "wind_chill_f" = none) := by
  constructor
  · simp [ecobeeData, List.lookup]
  · intro h
    unfold weatherData
    simp only [lookup_append]
    rw [optField_lookup_ne _ _ _ _ (by decide), optField_lookup_ne _ _ _ _ (by decide),
      optField_lookup_self, optField_lookup_ne _ _ _ _ (by decide),
      optField_lookup_ne _ _ _ _ (by decide), optField_lookup_ne _ _ _ _ (by decide), h]
    simp [List.lookup, Option.or]

/-- Witness for C10 at a concrete reading whose wind-chill validation
failed. -/
theorem ecobee_windchill_unconditional_witness :
    (ecobeeData rEx dExAllFail).lookup "wind_chill_f" =
      some (.num dExAllFail.windChillF) ∧
    (weatherData rEx dExAllFail).lookup "wind_chill_f" = none :=
  ⟨(ecobee_windchill_unconditional rEx dExAllFail).1,
   (ecobee_windchill_unconditional rEx dExAllFail).2 (by decide)⟩

/-- C3: with neither sink configured, the run is exactly one fatal
configuration event, and in particular performs no provider fetch nor any
other network call. -/
theorem no_sinks_fatal (cfg : Config) (w : World)
    (h1 : influxConfigured cfg = false) (h2 : mqttConfigured cfg = false) :
    (∃ m, runProgram cfg w = [Event.fatal m]) ∧
    ∀ e ∈ runProgram cfg w, isNetworkCall e = false := by
  have hrun : ∃ m, runProgram cfg w = [Event.fatal m] := by
    unfold runProgram
    rw [h1, h2]
    split_ifs <;> first | exact ⟨_, rfl⟩ | simp_all
  refine ⟨hrun, ?_⟩
  obtain ⟨m, hm⟩ := hrun
  rw [hm]
  intro e he
  rcases List.mem_singleton.mp he with rfl
  rfl

/-- Witness for C3 at the concrete sink-less configuration. -/
theorem no_sinks_fatal_witness :
    influxConfigured cfgNoSinks = false ∧ mqttConfigured cfgNoSinks = false ∧
      ∃ m, runProgram cfgNoSinks wEx = [Event.fatal m] :=
  ⟨by decide, by decide,
   (no_sinks_fatal cfgNoSinks wEx (by decide) (by decide)).1⟩

/-- C2: the legacy ecobee point goes only to the InfluxDB sink.  No MQTT
publish of any run ever carries the ecobee field set (witnessed by its
signature key `outdoor_temp`), while — whenever legacy mode is on, InfluxDB
is configured and the run reaches the delivery phase (in particular when
both sinks are configured) — the ecobee point is written to InfluxDB. -/
theorem ecobee_point_influx_only (cfg : Config) (w : World) :
    (∀ topic q payload, Event.mqttPublish topic q payload ∈ runProgram cfg w →
      payload.lookup "outdoor_temp" = none) ∧
    (cfg.writeEcobeeWeatherMeasurement = true → influxConfigured cfg = true →
      reachesWeatherPhase cfg w = true →
      Event.influxWrite ecobeeWeatherMeasurementName (ecobeeTags cfg)
        (ecobeeData w.reading w.derived) w.reading.dt ∈ runProgram cfg w) := by
  constructor
  · intro topic q payload hmem
    rcases mem_runProgram_classify hmem with
      ⟨m, h⟩ | h | h | h | h | ⟨m, h⟩ | ⟨s, h⟩ | h | h | ⟨p, aPm, aFull, h⟩ | h |
      ⟨p, aPm, aFull, h⟩
    · exact absurd h (by simp)
    · exact absurd h (by simp)
    · exact absurd h (by simp)
    · exact absurd h (by simp)
    · exact absurd h (by simp)
    · exact absurd h (by simp)
    · exact absurd h (by simp)
    · exact absurd h (by simp)
    · exact absurd h (by simp)
    · exact absurd h (by simp)
    · injection h with ht hq hp
      subst hp
      rw [lookup_append,
        weatherData_meta_none w.reading w.derived _
          (Or.inr (Or.inr (Or.inr (Or.inr rfl))))]
      simp [mqttMeta, List.lookup]
    · injection h with ht hq hp
      subst hp
      rw [lookup_append,
        pollutionData_meta_none p aPm aFull _
          (Or.inr (Or.inr (Or.inr (Or.inr rfl))))]
      simp [mqttMeta, List.lookup]
  · intro hE hI hr
    rw [runProgram_eq_of_reaches cfg w hr]
    refine List.mem_append_right _ (List.mem_append_right _
      (List.mem_cons_of_mem _ ?_))
    refine List.mem_append_left _ (List.mem_append_left _
      (List.mem_append_left _ ?_))
    simp [ecobeeEvents, hE, hI]

/-- Witness for C2 at the concrete two-sink run: the weather MQTT payload
carries no `outdoor_temp`, and the ecobee point is written to InfluxDB. -/
theorem ecobee_point_influx_only_witness :
    (weatherData rEx dExAllOk ++ mqttMeta cfgEx 1700000000).lookup
        "outdoor_temp" = none ∧
    Event.influxWrite ecobeeWeatherMeasurementName (ecobeeTags cfgEx)
        (ecobeeData rEx dExAllOk) 1700000000 ∈ runProgram cfgEx wEx :=
  ⟨(ecobee_point_influx_only cfgEx wEx).1
      (cfgEx.mqtt.topicRoot ++ "/weather") 0 _ (by decide),
   (ecobee_point_influx_only cfgEx wEx).2 (by decide) (by decide) (by decide)⟩

/-- C8: with the MQTT sink configured (and the run reaching delivery), the
weather point's field set is augmented with exactly the four metadata
entries (source, latitude, longitude, unix timestamp) and published at QoS 0
("at most once") on the topic root + "/weather"; likewise the pollution
point on root + "/pollution".  No hypothesis constrains the publish
outcomes, and the pollution fetch still occurs — a publish failure never
aborts the run. -/
theorem mqtt_delivery (cfg : Config) (w : World)
    (hm : mqttConfigured cfg = true)
    (hr : reachesWeatherPhase cfg w = true)
    (hmar : w.weatherMarshalErr = false) :
    mqttMeta cfg w.reading.dt =
      [("source", Val.str "openweathermap"), ("latitude", Val.num cfg.latitude),
       ("longitude", Val.num cfg.longitude), ("timestamp", Val.int w.reading.dt)] ∧
    Event.mqttPublish (cfg.mqtt.topicRoot ++ "/weather") 0
      (weatherData w.reading w.derived ++ mqttMeta cfg w.reading.dt) ∈
        runProgram cfg w ∧
    Event.fetchPollution ∈ runProgram cfg w ∧
    (∀ (p : PollutionReading) (tail : List PollutionReading)
        (aPm aFull : AqiResult),
      w.polFetchErr = false → w.polList = p :: tail → w.aqiPm = some aPm →
      w.aqiFull = some aFull → w.pollutionMarshalErr = false →
      Event.mqttPublish (cfg.mqtt.topicRoot ++ "/pollution") 0
        (pollutionData p aPm aFull ++ mqttMeta cfg p.dt) ∈ runProgram cfg w) := by
  refine ⟨rfl, ?_, ?_, ?_⟩
  · rw [runProgram_eq_of_reaches cfg w hr]
    refine List.mem_append_right _ (List.mem_append_right _
      (List.mem_cons_of_mem _ ?_))
    refine List.mem_append_left _ (List.mem_append_right _ ?_)
    simp [weatherMqttEvents, hm, hmar]
  · rw [runProgram_eq_of_reaches cfg w hr]
    refine List.mem_append_right _ (List.mem_append_right _
      (List.mem_cons_of_mem _ ?_))
    exact List.mem_append_right _ (List.mem_cons_self _ _)
  · intro p tail aPm aFull hpf hp ha hf hmar2
    rw [runProgram_eq_of_reaches cfg w hr]
    refine List.mem_append_right _ (List.mem_append_right _
      (List.mem_cons_of_mem _ ?_))
    refine List.mem_append_right _ (List.mem_cons_of_mem _ ?_)
    rw [hpf]
    simp only [Bool.false_eq_true, if_false]
    unfold pollutionPhase
    rw [hp, ha, hf]
    refine List.mem_append_right _ ?_
    simp [pollutionMqttEvents, hm, hmar2]

/-- Witness for C8 at the concrete two-sink run in which the weather publish
FAILS: both publishes are still in the trace and the pollution fetch still
happens. -/
theorem mqtt_delivery_witness :
    Event.mqttPublish (cfgEx.mqtt.topicRoot ++ "/weather") 0
      (weatherData rEx dExAllOk ++ mqttMeta cfgEx 1700000000) ∈
        runProgram cfgEx wExPublishFail ∧
    Event.fetchPollution ∈ runProgram cfgEx wExPublishFail ∧
    Event.mqttPublish (cfgEx.mqtt.topicRoot ++ "/pollution") 0
      (pollutionData pEx aqiPmEx aqiFullEx ++ mqttMeta cfgEx 1700000100) ∈
        runProgram cfgEx wExPublishFail :=
  ⟨(mqtt_delivery cfgEx wExPublishFail (by decide) (by decide) (by decide)).2.1,
   (mqtt_delivery cfgEx wExPublishFail (by decide) (by decide) (by decide)).2.2.1,
   (mqtt_delivery cfgEx wExPublishFail (by decide) (by decide) (by decide)).2.2.2
     pEx [] aqiPmEx aqiFullEx (by decide) (by decide) (by decide) (by decide)
     (by decide)⟩

/-- C9: no field map ever written to InfluxDB contains any of the four MQTT
metadata keys — the metadata is appended to the shared map only for the MQTT
payload, after the corresponding InfluxDB write — and every MQTT payload
contains each metadata key exactly once (appended at most once per point). -/
theorem influx_fields_no_metadata (cfg : Config) (w : World) :
    (∀ m tags fields t, Event.influxWrite m tags fields t ∈ runProgram cfg w →
      fields.lookup "source" = none ∧ fields.lookup "latitude" = none ∧
      fields.lookup "longitude" = none ∧ fields.lookup "timestamp" = none) ∧
    (∀ topic q payload, Event.mqttPublish topic q payload ∈ runProgram cfg w →
      (payload.map Prod.fst).count "source" = 1 ∧
      (payload.map Prod.fst).count "latitude" = 1 ∧
      (payload.map Prod.fst).count "longitude" = 1 ∧
      (payload.map Prod.fst).count "timestamp" = 1) := by
  constructor
  · intro m tags fields t hmem
    rcases mem_runProgram_classify hmem with
      ⟨m', h⟩ | h | h | h | h | ⟨m', h⟩ | ⟨s, h⟩ | h | h | ⟨p, aPm, aFull, h⟩ | h |
      ⟨p, aPm, aFull, h⟩
    · exact absurd h (by simp)
    · exact absurd h (by simp)
    · exact absurd h (by simp)
    · exact absurd h (by simp)
    · exact absurd h (by simp)
    · exact absurd h (by simp)
    · exact absurd h (by simp)
    · injection h with h1 h2 h3 h4
      subst h3
      exact ⟨ecobeeData_meta_none _ _ _ (Or.inl rfl),
        ecobeeData_meta_none _ _ _ (Or.inr (Or.inl rfl)),
        ecobeeData_meta_none _ _ _ (Or.inr (Or.inr (Or.inl rfl))),
        ecobeeData_meta_none _ _ _ (Or.inr (Or.inr (Or.inr rfl)))⟩
    · injection h with h1 h2 h3 h4
      subst h3
      exact ⟨weatherData_meta_none _ _ _ (Or.inl rfl),
        weatherData_meta_none _ _ _ (Or.inr (Or.inl rfl)),
        weatherData_meta_none _ _ _ (Or.inr (Or.inr (Or.inl rfl))),
        weatherData_meta_none _ _ _ (Or.inr (Or.inr (Or.inr (Or.inl rfl))))⟩
    · injection h with h1 h2 h3 h4
      subst h3
      exact ⟨pollutionData_meta_none _ _ _ _ (Or.inl rfl),
        pollutionData_meta_none _ _ _ _ (Or.inr (Or.inl rfl)),
        pollutionData_meta_none _ _ _ _ (Or.inr (Or.inr (Or.inl rfl))),
        pollutionData_meta_none _ _ _ _ (Or.inr (Or.inr (Or.inr (Or.inl rfl))))⟩
    · exact absurd h (by simp)
    · exact absurd h (by simp)
  · intro topic q payload hmem
    have meta_count : ∀ (t : ℤ) (k : String), k ∈ ["source", "latitude",
        "longitude", "timestamp"] → ((mqttMeta cfg t).map Prod.fst).count k = 1 := by
      intro t k hk
      fin_cases hk <;> rfl
    rcases mem_runProgram_classify hmem with
      ⟨m', h⟩ | h | h | h | h | ⟨m', h⟩ | ⟨s, h⟩ | h | h | ⟨p, aPm, aFull, h⟩ | h |
      ⟨p, aPm, aFull, h⟩
    · exact absurd h (by simp)
    · exact absurd h (by simp)
    · exact absurd h (by simp)
    · exact absurd h (by simp)
    · exact absurd h (by simp)
    · exact absurd h (by simp)
    · exact absurd h (by simp)
    · exact absurd h (by simp)
    · exact absurd h (by simp)
    · exact absurd h (by simp)
    · injection h with ht hq hp
      subst hp
      refine ⟨?_, ?_, ?_, ?_⟩ <;>
      · rw [List.map_append, List.count_append,
          List.count_eq_zero.mpr (not_mem_keys_of_lookup_none
            (weatherData_meta_none w.reading w.derived _ (by tauto)))]
        rw [meta_count _ _ (by simp)]
    · injection h with ht hq hp
      subst hp
      refine ⟨?_, ?_, ?_, ?_⟩ <;>
      · rw [List.map_append, List.count_append,
          List.count_eq_zero.mpr (not_mem_keys_of_lookup_none
            (pollutionData_meta_none p aPm aFull _ (by tauto)))]
        rw [meta_count _ _ (by simp)]

/-- Witness for C9 at the concrete two-sink run: the weather InfluxDB write
carries no `source` key while the weather MQTT payload carries it exactly
once. -/
theorem influx_fields_no_metadata_witness :
    (weatherData rEx dExAllOk).lookup "source" = none ∧
    ((weatherData rEx dExAllOk ++ mqttMeta cfgEx 1700000000).map
        Prod.fst).count "source" = 1 :=
  ⟨((influx_fields_no_metadata cfgEx wEx).1 cfgEx.weatherMeasurementName
      (weatherTags cfgEx) _ 1700000000 (by decide)).1,
   ((influx_fields_no_metadata cfgEx wEx).2 (cfgEx.mqtt.topicRoot ++ "/weather")
      0 _ (by decide)).1⟩

end OWIC
